import Mathlib

/-!
Verification of the tempest echo node against its specification.

The development shallowly embeds src/src/main.rs: the wire-level message
model (Message, Body, Payload), the node state machine (EchoNodeState and
EchoNode.next), the dispatch loop over a list of decoded messages
(EchoNode.run), and the serde-derived JSON encoding of messages
(encodeMessage). Theorems about these definitions settle the claims of the
specification.
-/

/-- Wire payload variants, discriminated by the serde tag field named type,
with variant names renamed to snake_case on the wire. -/
inductive Payload where
  | Init (node_id : String) (node_ids : List String)
  | InitOk
  | Echo (echo : String)
  | EchoOk (echo : String)
  deriving DecidableEq, Repr

/-- Message body: optional message id (wire name msg_id), optional
correlation id in_reply_to, and the flattened payload. -/
structure Body where
  id : Option Nat
  in_reply_to : Option Nat
  payload : Payload
  deriving DecidableEq, Repr

/-- Message envelope: source (wire name src), destination (wire name dest)
and body. -/
structure Message where
  source : String
  destination : String
  body : Body
  deriving DecidableEq, Repr

/-- Node lifecycle state: Initializing at process start, Ready once an init
payload has been handled, carrying the assigned id and the counter. -/
inductive EchoNodeState where
  | Initializing
  | Ready (self_id : String) (message_id : Nat)
  deriving DecidableEq, Repr

/-- The two protocol failures raised by EchoNode.next via bail: a message
addressed to another node while Ready, and a second init while Ready. -/
inductive ProtocolError where
  | MisroutedMessage
  | UnexpectedInit
  deriving DecidableEq, Repr

/-- One handling step, translated from EchoNode.next in src/src/main.rs.
Given the state before the call and one decoded message, the result is the
state after the call, the list of messages written to the output during the
call in order, and the error the call bailed with, if any. -/
def EchoNode.next (state : EchoNodeState) (message : Message) :
    EchoNodeState × List Message × Option ProtocolError :=
  match state with
  | .Initializing =>
    match message.body.payload with
    | .Echo _ => (state, [], none)
    | .Init node_id _ =>
      (.Ready node_id 1,
       [{ source := message.destination
          destination := message.source
          body := { id := some 0, in_reply_to := message.body.id, payload := .InitOk } }],
       none)
    | _ => (state, [], none)
  | .Ready self_id message_id =>
    if message.destination = self_id then
      match message.body.payload with
      | .Echo echo =>
        (.Ready self_id (message_id + 1),
         [{ source := message.destination
            destination := message.source
            body := { id := some message_id, in_reply_to := message.body.id
                      payload := .EchoOk echo } }],
         none)
      | .Init _ _ => (state, [], some .UnexpectedInit)
      | _ => (state, [], none)
    else (state, [], some .MisroutedMessage)

/-- The dispatch loop of main, translated over a list of decoded messages:
feed each message to EchoNode.next in order, stop at the first error, and
concatenate all written replies. -/
def EchoNode.run (state : EchoNodeState) (msgs : List Message) :
    EchoNodeState × List Message × Option ProtocolError :=
  match msgs with
  | [] => (state, [], none)
  | m :: rest =>
    match EchoNode.next state m with
    | (st1, out, some e) => (st1, out, some e)
    | (st1, out, none) =>
      match EchoNode.run st1 rest with
      | (st2, out2, err) => (st2, out ++ out2, err)

/-- C1: handling an init payload while Initializing transitions the node to
Ready with self_id the node_id from the payload and counter 1, and writes
exactly one reply: source is the incoming destination, destination is the
incoming source, id is 0, in_reply_to is the incoming id, payload InitOk. -/
theorem init_transitions_and_replies (m : Message) (nid : String) (nids : List String)
    (h : m.body.payload = .Init nid nids) :
    EchoNode.next .Initializing m =
      (.Ready nid 1,
       [{ source := m.destination
          destination := m.source
          body := { id := some 0, in_reply_to := m.body.id, payload := .InitOk } }],
       none) := by
  simp [EchoNode.next, h]

/-- Witness for C1 at a concrete init message. -/
theorem init_transitions_and_replies_witness :
    EchoNode.next .Initializing
      { source := "c1", destination := "n1"
        body := { id := some 1, in_reply_to := none
                  payload := .Init "n1" ["n1"] } } =
      (.Ready "n1" 1,
       [{ source := "n1", destination := "c1"
          body := { id := some 0, in_reply_to := some 1, payload := .InitOk } }],
       none) :=
  init_transitions_and_replies _ "n1" ["n1"] rfl

/-- C2: handling an echo payload while Ready and correctly addressed writes
exactly one reply carrying the current counter as id, the incoming id as
in_reply_to, and the identical echo string, and advances the counter by 1. -/
theorem echo_reply_and_increment (m : Message) (sid : String) (n : Nat) (e : String)
    (hp : m.body.payload = .Echo e) (hd : m.destination = sid) :
    EchoNode.next (.Ready sid n) m =
      (.Ready sid (n + 1),
       [{ source := m.destination
          destination := m.source
          body := { id := some n, in_reply_to := m.body.id, payload := .EchoOk e } }],
       none) := by
  simp [EchoNode.next, hp, hd]

/-- Witness for C2 at a concrete echo message. -/
theorem echo_reply_and_increment_witness :
    EchoNode.next (.Ready "n1" 1)
      { source := "c1", destination := "n1"
        body := { id := some 2, in_reply_to := none, payload := .Echo "hello" } } =
      (.Ready "n1" 2,
       [{ source := "n1", destination := "c1"
          body := { id := some 1, in_reply_to := some 2, payload := .EchoOk "hello" } }],
       none) :=
  echo_reply_and_increment _ "n1" 1 "hello" rfl rfl

/-- C4: while Ready, a message whose destination differs from self_id fails
with MisroutedMessage whatever its payload, leaving the state unchanged and
writing nothing. -/
theorem misrouted_message_fails (m : Message) (sid : String) (n : Nat)
    (hd : m.destination ≠ sid) :
    EchoNode.next (.Ready sid n) m = (.Ready sid n, [], some .MisroutedMessage) := by
  simp [EchoNode.next, hd]

/-- Witness for C4 at a concrete misaddressed message. -/
theorem misrouted_message_fails_witness :
    EchoNode.next (.Ready "n1" 1)
      { source := "c1", destination := "n2"
        body := { id := some 2, in_reply_to := none, payload := .Echo "hello" } } =
      (.Ready "n1" 1, [], some .MisroutedMessage) :=
  misrouted_message_fails _ "n1" 1 (by decide)

/-- C5: an init payload while Ready always fails, and when the message is
addressed to this node the failure is UnexpectedInit. -/
theorem init_while_ready_fails (m : Message) (sid : String) (n : Nat)
    (nid : String) (nids : List String) (hp : m.body.payload = .Init nid nids) :
    (∃ e, (EchoNode.next (.Ready sid n) m).2.2 = some e) ∧
      (m.destination = sid →
        EchoNode.next (.Ready sid n) m = (.Ready sid n, [], some .UnexpectedInit)) := by
  constructor
  · by_cases hd : m.destination = sid
    · exact ⟨.UnexpectedInit, by simp [EchoNode.next, hp, hd]⟩
    · exact ⟨.MisroutedMessage, by simp [EchoNode.next, hd]⟩
  · intro hd
    simp [EchoNode.next, hp, hd]

/-- Witness for C5 at a concrete second init message. -/
theorem init_while_ready_fails_witness :
    EchoNode.next (.Ready "n1" 3)
      { source := "c1", destination := "n1"
        body := { id := some 9, in_reply_to := none
                  payload := .Init "n1" ["n1"] } } =
      (.Ready "n1" 3, [], some .UnexpectedInit) :=
  (init_while_ready_fails _ "n1" 3 "n1" ["n1"] rfl).2 rfl

/-- C8: every error path is atomic: whenever a step fails, the state after
the call is the state before it and nothing was written to the output. -/
theorem error_paths_preserve_state_and_output (st : EchoNodeState) (m : Message)
    (e : ProtocolError) (h : (EchoNode.next st m).2.2 = some e) :
    EchoNode.next st m = (st, [], some e) := by
  cases st with
  | Initializing =>
    cases hp : m.body.payload <;> simp [EchoNode.next, hp] at h
  | Ready sid n =>
    by_cases hd : m.destination = sid
    · cases hp : m.body.payload <;> simp [EchoNode.next, hp, hd] at h ⊢
      exact h
    · simp [EchoNode.next, hd] at h ⊢
      exact h

/-- Witness for C8 at a concrete misaddressed message. -/
theorem error_paths_preserve_state_and_output_witness :
    EchoNode.next (.Ready "n1" 5)
      { source := "c1", destination := "n9"
        body := { id := none, in_reply_to := none, payload := .InitOk } } =
      (.Ready "n1" 5, [], some .MisroutedMessage) :=
  error_paths_preserve_state_and_output (.Ready "n1" 5) _ .MisroutedMessage rfl

/-- C9: while Initializing no step can fail, whatever the destination, and
an init message with any destination, also one distinct from the node_id it
assigns, still moves the node to Ready with self_id the node_id from the
payload and produces the init_ok reply whose source is the incoming
destination. -/
theorem initializing_ignores_destination (m : Message) :
    (EchoNode.next .Initializing m).2.2 = none ∧
      (∀ nid nids, m.body.payload = .Init nid nids →
        EchoNode.next .Initializing m =
          (.Ready nid 1,
           [{ source := m.destination
              destination := m.source
              body := { id := some 0, in_reply_to := m.body.id, payload := .InitOk } }],
           none)) := by
  constructor
  · cases hp : m.body.payload <;> simp [EchoNode.next, hp]
  · intro nid nids hp
    simp [EchoNode.next, hp]

/-- Witness for C9: an init message whose destination differs from the
assigned node_id still initializes the node and gets the reply. -/
theorem initializing_ignores_destination_witness :
    (EchoNode.next .Initializing
        { source := "c1", destination := "other"
          body := { id := some 1, in_reply_to := none
                    payload := .Init "n1" ["n1"] } }).2.2 = none ∧
      EchoNode.next .Initializing
          { source := "c1", destination := "other"
            body := { id := some 1, in_reply_to := none
                      payload := .Init "n1" ["n1"] } } =
        (.Ready "n1" 1,
         [{ source := "other", destination := "c1"
            body := { id := some 0, in_reply_to := some 1, payload := .InitOk } }],
         none) :=
  ⟨(initializing_ignores_destination _).1,
   (initializing_ignores_destination _).2 "n1" ["n1"] rfl⟩

/-- C10: node_ids noninterference: two messages identical except for the
node_ids field of their init payloads are handled identically in every
state, with the same reply, the same resulting state and the same error. -/
theorem node_ids_noninterference (st : EchoNodeState) (m1 m2 : Message)
    (hs : m1.source = m2.source) (hd : m1.destination = m2.destination)
    (hi : m1.body.id = m2.body.id)
    (hr : m1.body.in_reply_to = m2.body.in_reply_to)
    (nid : String) (nids1 nids2 : List String)
    (hp1 : m1.body.payload = .Init nid nids1)
    (hp2 : m2.body.payload = .Init nid nids2) :
    EchoNode.next st m1 = EchoNode.next st m2 := by
  cases st with
  | Initializing =>
    simp [EchoNode.next, hp1, hp2, hs, hd, hi]
  | Ready sid n =>
    by_cases hdd : m1.destination = sid
    · have hdd2 : m2.destination = sid := hd ▸ hdd
      simp [EchoNode.next, hp1, hp2, hdd, hdd2]
    · have hdd2 : ¬m2.destination = sid := by rw [← hd]; exact hdd
      simp [EchoNode.next, hdd, hdd2]

/-- Witness for C10 at two concrete init messages differing only in
node_ids. -/
theorem node_ids_noninterference_witness :
    EchoNode.next .Initializing
        { source := "c1", destination := "n1"
          body := { id := some 1, in_reply_to := none
                    payload := .Init "n1" ["n1"] } } =
      EchoNode.next .Initializing
        { source := "c1", destination := "n1"
          body := { id := some 1, in_reply_to := none
                    payload := .Init "n1" ["n1", "n2", "n3"] } } :=
  node_ids_noninterference .Initializing _ _ rfl rfl rfl rfl
    "n1" ["n1"] ["n1", "n2", "n3"] rfl rfl

/-- Helper for C3: from a Ready state with counter n, an error-free run
writes replies whose ids are n, n + 1, n + 2, and so on, one per reply. -/
lemma run_ready_reply_ids (msgs : List Message) :
    ∀ (sid : String) (n : Nat) (st : EchoNodeState) (out : List Message),
      EchoNode.run (.Ready sid n) msgs = (st, out, none) →
      out.map (fun r => r.body.id) = (List.range' n out.length).map some := by
  induction msgs with
  | nil =>
    intro sid n st out h
    simp [EchoNode.run] at h
    rw [h.2]
    simp
  | cons m rest ih =>
    intro sid n st out h
    by_cases hd : m.destination = sid
    · cases hp : m.body.payload with
      | Echo e =>
        rcases hr : EchoNode.run (.Ready sid (n + 1)) rest with ⟨st2, out2, err⟩
        simp [EchoNode.run, EchoNode.next, hp, hd, hr] at h
        rcases h with ⟨h1, h2, h3⟩
        subst h3
        have hids := ih sid (n + 1) st2 out2 hr
        rw [← h2]
        simp [hids, List.range'_succ]
      | Init nid nids =>
        simp [EchoNode.run, EchoNode.next, hp, hd] at h
      | InitOk =>
        rcases hr : EchoNode.run (.Ready sid n) rest with ⟨st2, out2, err⟩
        simp [EchoNode.run, EchoNode.next, hp, hd, hr] at h
        rcases h with ⟨h1, h2, h3⟩
        subst h3
        rw [← h2]
        exact ih sid n st2 out2 hr
      | EchoOk e =>
        rcases hr : EchoNode.run (.Ready sid n) rest with ⟨st2, out2, err⟩
        simp [EchoNode.run, EchoNode.next, hp, hd, hr] at h
        rcases h with ⟨h1, h2, h3⟩
        subst h3
        rw [← h2]
        exact ih sid n st2 out2 hr
    · simp [EchoNode.run, EchoNode.next, hd] at h

/-- C3: over any error-free run from process start, the replies carry the
ids 0, 1, 2, and so on in order: 0 on the single init_ok reply and then the
counter values 1, 2, 3 on successive echo_ok replies, each emission
incrementing the counter by exactly 1. -/
theorem reply_ids_are_consecutive_from_zero (msgs : List Message)
    (st : EchoNodeState) (replies : List Message)
    (h : EchoNode.run .Initializing msgs = (st, replies, none)) :
    replies.map (fun r => r.body.id) = (List.range replies.length).map some := by
  induction msgs generalizing st replies with
  | nil =>
    simp [EchoNode.run] at h
    rw [h.2]
    simp
  | cons m rest ih =>
    cases hp : m.body.payload with
    | Init nid nids =>
      rcases hr : EchoNode.run (.Ready nid 1) rest with ⟨st2, out2, err⟩
      simp [EchoNode.run, EchoNode.next, hp, hr] at h
      rcases h with ⟨h1, h2, h3⟩
      subst h3
      have hids := run_ready_reply_ids rest nid 1 st2 out2 hr
      rw [← h2]
      simp [hids, List.range_eq_range', List.range'_succ]
    | Echo e =>
      rcases hr : EchoNode.run .Initializing rest with ⟨st2, out2, err⟩
      simp [EchoNode.run, EchoNode.next, hp, hr] at h
      rcases h with ⟨h1, h2, h3⟩
      subst h3
      rw [← h2]
      exact ih st2 out2 hr
    | InitOk =>
      rcases hr : EchoNode.run .Initializing rest with ⟨st2, out2, err⟩
      simp [EchoNode.run, EchoNode.next, hp, hr] at h
      rcases h with ⟨h1, h2, h3⟩
      subst h3
      rw [← h2]
      exact ih st2 out2 hr
    | EchoOk e =>
      rcases hr : EchoNode.run .Initializing rest with ⟨st2, out2, err⟩
      simp [EchoNode.run, EchoNode.next, hp, hr] at h
      rcases h with ⟨h1, h2, h3⟩
      subst h3
      rw [← h2]
      exact ih st2 out2 hr

/-- A concrete three-message session: one init followed by two echoes. -/
def demoMsgs : List Message :=
  [{ source := "c1", destination := "n1"
     body := { id := some 1, in_reply_to := none, payload := .Init "n1" ["n1"] } },
   { source := "c1", destination := "n1"
     body := { id := some 2, in_reply_to := none, payload := .Echo "hello" } },
   { source := "c1", destination := "n1"
     body := { id := some 3, in_reply_to := none, payload := .Echo "world" } }]

/-- The replies the node writes along demoMsgs. -/
def demoReplies : List Message :=
  [{ source := "n1", destination := "c1"
     body := { id := some 0, in_reply_to := some 1, payload := .InitOk } },
   { source := "n1", destination := "c1"
     body := { id := some 1, in_reply_to := some 2, payload := .EchoOk "hello" } },
   { source := "n1", destination := "c1"
     body := { id := some 2, in_reply_to := some 3, payload := .EchoOk "world" } }]

/-- Witness for C3 on the concrete three-message session. -/
theorem reply_ids_are_consecutive_from_zero_witness :
    demoReplies.map (fun r => r.body.id) = (List.range demoReplies.length).map some :=
  reply_ids_are_consecutive_from_zero demoMsgs (.Ready "n1" 3) demoReplies (by decide)

/-- True exactly on the Init variant. -/
def Payload.isInit : Payload → Bool
  | .Init _ _ => true
  | _ => false

/-- True exactly on the InitOk variant. -/
def Payload.isInitOk : Payload → Bool
  | .InitOk => true
  | _ => false

/-- True exactly on the EchoOk variant. -/
def Payload.isEchoOk : Payload → Bool
  | .EchoOk _ => true
  | _ => false

/-- C6: a step is a silent no-op, same state, nothing written, no error,
exactly when the node is Initializing and the payload is not init, or the
node is Ready, the message is addressed to it, and the payload is init_ok
or echo_ok. -/
theorem silent_noop_characterization (st : EchoNodeState) (m : Message) :
    EchoNode.next st m = (st, [], none) ↔
      ((st = .Initializing ∧ m.body.payload.isInit = false) ∨
       (∃ sid n, st = .Ready sid n ∧ m.destination = sid ∧
         (m.body.payload.isInitOk = true ∨ m.body.payload.isEchoOk = true))) := by
  cases st with
  | Initializing =>
    cases hp : m.body.payload <;>
      simp [EchoNode.next, hp, Payload.isInit, Payload.isInitOk, Payload.isEchoOk]
  | Ready sid n =>
    by_cases hd : m.destination = sid
    · cases hp : m.body.payload <;>
        simp [EchoNode.next, hp, hd, Payload.isInit, Payload.isInitOk, Payload.isEchoOk]
    · cases hp : m.body.payload <;>
        simp [EchoNode.next, hp, hd, Payload.isInit, Payload.isInitOk, Payload.isEchoOk]

/-- Witness for C6: the no-op equivalence applied at a concrete echo_ok
message addressed to a Ready node. -/
theorem silent_noop_characterization_witness :
    EchoNode.next (.Ready "n1" 4)
      { source := "c1", destination := "n1"
        body := { id := none, in_reply_to := some 1, payload := .EchoOk "hi" } } =
      (.Ready "n1" 4, [], none) :=
  (silent_noop_characterization (.Ready "n1" 4)
      { source := "c1", destination := "n1"
        body := { id := none, in_reply_to := some 1, payload := .EchoOk "hi" } }).mpr
    (Or.inr ⟨"n1", 4, rfl, rfl, Or.inr rfl⟩)

/-- Minimal JSON value model used to state the serde encoding contract. -/
inductive Json where
  | null
  | str (s : String)
  | num (n : Nat)
  | arr (xs : List Json)
  | obj (fields : List (String × Json))
  deriving Repr

/-- serde_json encoding of an Option of usize with no skip attribute: a
missing value encodes as null, a present one as the number. -/
def encodeOptNat : Option Nat → Json
  | none => .null
  | some n => .num n

/-- serde encoding of Payload, internally tagged by the type field with the
variant name in snake_case, then the variant fields in declaration order. -/
def encodePayload : Payload → Json
  | .Init node_id node_ids =>
      .obj [("type", .str "init"), ("node_id", .str node_id),
            ("node_ids", .arr (node_ids.map .str))]
  | .InitOk => .obj [("type", .str "init_ok")]
  | .Echo echo => .obj [("type", .str "echo"), ("echo", .str echo)]
  | .EchoOk echo => .obj [("type", .str "echo_ok"), ("echo", .str echo)]

/-- Fields of a JSON object, empty on non-objects; used to flatten. -/
def Json.objFields : Json → List (String × Json)
  | .obj fields => fields
  | _ => []

/-- serde encoding of Body: the renamed msg_id field, then in_reply_to,
then the payload encoding flattened into the same object. -/
def encodeBody (b : Body) : Json :=
  .obj ([("msg_id", encodeOptNat b.id), ("in_reply_to", encodeOptNat b.in_reply_to)]
        ++ (encodePayload b.payload).objFields)

/-- serde encoding of Message with the src and dest field renames. -/
def encodeMessage (m : Message) : Json :=
  .obj [("src", .str m.source), ("dest", .str m.destination), ("body", encodeBody m.body)]

/-- First value bound to a key in a JSON object field list. -/
def lookupField (fields : List (String × Json)) (k : String) : Option Json :=
  match fields with
  | [] => none
  | (k2, v) :: rest => if k2 = k then some v else lookupField rest k

/-- Wire tag of a payload variant. -/
def Payload.tag : Payload → String
  | .Init _ _ => "init"
  | .InitOk => "init_ok"
  | .Echo _ => "echo"
  | .EchoOk _ => "echo_ok"

/-- C7: the encoded form of every Message is an object with exactly the
keys src, dest and body; body is one flat object made of msg_id,
in_reply_to and the payload fields with its discriminant key type bound to
one of the four variant tags; msg_id and in_reply_to are always present and
bound to null when the option is absent. -/
theorem encoded_message_is_flat_with_required_keys (m : Message) :
    ∃ fields,
      encodeMessage m =
        .obj [("src", .str m.source), ("dest", .str m.destination), ("body", .obj fields)] ∧
      fields = [("msg_id", encodeOptNat m.body.id),
                ("in_reply_to", encodeOptNat m.body.in_reply_to)]
               ++ (encodePayload m.body.payload).objFields ∧
      lookupField fields "type" = some (.str m.body.payload.tag) ∧
      m.body.payload.tag ∈ (["init", "init_ok", "echo", "echo_ok"] : List String) ∧
      lookupField fields "msg_id" = some (encodeOptNat m.body.id) ∧
      lookupField fields "in_reply_to" = some (encodeOptNat m.body.in_reply_to) ∧
      (m.body.id = none → lookupField fields "msg_id" = some .null) ∧
      (m.body.in_reply_to = none → lookupField fields "in_reply_to" = some .null) ∧
      (∀ kv ∈ (encodePayload m.body.payload).objFields,
        lookupField fields kv.1 = some kv.2) := by
  refine ⟨[("msg_id", encodeOptNat m.body.id),
           ("in_reply_to", encodeOptNat m.body.in_reply_to)]
          ++ (encodePayload m.body.payload).objFields,
    rfl, rfl, ?_, ?_, ?_, ?_, ?_, ?_, ?_⟩
  · cases m.body.payload <;>
      simp [encodePayload, Json.objFields, lookupField, Payload.tag]
  · cases m.body.payload <;> simp [Payload.tag]
  · simp [lookupField]
  · simp [lookupField]
  · intro h
    simp [lookupField, h, encodeOptNat]
  · intro h
    simp [lookupField, h, encodeOptNat]
  · intro kv hkv
    cases hp : m.body.payload <;>
      rw [hp] at hkv <;>
      simp [encodePayload, Json.objFields] at hkv <;>
      rcases hkv with h1 | h2 | h3 <;>
      simp_all [lookupField, encodePayload, Json.objFields]

/-- Witness for C7 at a concrete message whose optional ids are absent. -/
theorem encoded_message_is_flat_with_required_keys_witness :
    ∃ fields,
      encodeMessage
          { source := "c1", destination := "n1"
            body := { id := none, in_reply_to := none, payload := .Echo "hey" } } =
        .obj [("src", .str "c1"), ("dest", .str "n1"), ("body", .obj fields)] ∧
      lookupField fields "msg_id" = some .null ∧
      lookupField fields "in_reply_to" = some .null ∧
      lookupField fields "type" = some (.str "echo") ∧
      lookupField fields "echo" = some (.str "hey") := by
  obtain ⟨fields, h1, h2, h3, h4, h5, h6, h7, h8, h9⟩ :=
    encoded_message_is_flat_with_required_keys
      { source := "c1", destination := "n1"
        body := { id := none, in_reply_to := none, payload := .Echo "hey" } }
  exact ⟨fields, h1, h7 rfl, h8 rfl, h3,
    h9 ("echo", .str "hey") (by simp [encodePayload, Json.objFields])⟩
